import Mathlib

/-!
Verification of the notebook
`docs/source/examples/Going to Mars with Python using poliastro.ipynb`.

The notebook is a straight-line script: it selects the JPL ephemeris,
defines the MSL launch and arrival dates, samples `N = 50` epochs between
them, fetches Earth and Mars barycentric positions and velocities at those
epochs, solves Lambert's problem for the transfer orbit, and plots the
three trajectories.

This file gives the notebook a shallow embedding at two levels:

* a semantic model `runNotebook`, a function of the external collaborators
  (ephemeris lookup, Lambert solver, Kepler propagator, renderer), written
  statement by statement from the code cells, which returns the final
  bindings and the trace of external effects; and
* a syntactic model `notebookStmts`, the source-order list of the
  notebook's executable statements.

The poliastro library itself is not part of this source slice; the few
library behaviours that claims depend on (`time_range`,
`Orbit.from_vectors`, `Sun.k`) are modelled from the specification and
are marked as such in their doc comments.  Calendar and leap-second
arithmetic follows the civil (proleptic Gregorian) calendar and the
published UTC leap-second table, which is what the notebook's time
library implements.
-/

namespace GoingToMars

/-! ## Civil calendar and UTC leap seconds -/

/-- Number of days from 1970-01-01 to the civil date `y-m-d`
(proleptic Gregorian calendar, Hinnant's `days_from_civil` algorithm). -/
def daysFromCivil (y m d : Int) : Int :=
  let y' := if m ≤ 2 then y - 1 else y
  let era := (if 0 ≤ y' then y' else y' - 399) / 400
  let yoe := y' - era * 400
  let doy := (153 * (if 2 < m then m - 3 else m + 9) + 2) / 5 + d - 1
  let doe := yoe * 365 + yoe / 4 - yoe / 100 + doy
  era * 146097 + doe - 719468

/-- UTC wall-clock reading `y-m-d hh:mi:ss` as clock seconds since
1970-01-01 00:00:00 (leap seconds not counted: every civil day
contributes exactly 86400). -/
def utcClock (y m d hh mi ss : Int) : Int :=
  daysFromCivil y m d * 86400 + hh * 3600 + mi * 60 + ss

/-- The published UTC leap seconds, each given as the clock-second reading
of the UTC midnight that immediately follows the inserted second
(the extra second 23:59:60 occurs just before each listed boundary). -/
def leapSecondBoundaries : List Int :=
  [utcClock 1972 7 1 0 0 0, utcClock 1973 1 1 0 0 0, utcClock 1974 1 1 0 0 0,
   utcClock 1975 1 1 0 0 0, utcClock 1976 1 1 0 0 0, utcClock 1977 1 1 0 0 0,
   utcClock 1978 1 1 0 0 0, utcClock 1979 1 1 0 0 0, utcClock 1980 1 1 0 0 0,
   utcClock 1981 7 1 0 0 0, utcClock 1982 7 1 0 0 0, utcClock 1983 7 1 0 0 0,
   utcClock 1985 7 1 0 0 0, utcClock 1988 1 1 0 0 0, utcClock 1990 1 1 0 0 0,
   utcClock 1991 1 1 0 0 0, utcClock 1992 7 1 0 0 0, utcClock 1993 7 1 0 0 0,
   utcClock 1994 7 1 0 0 0, utcClock 1996 1 1 0 0 0, utcClock 1997 7 1 0 0 0,
   utcClock 1999 1 1 0 0 0, utcClock 2006 1 1 0 0 0, utcClock 2009 1 1 0 0 0,
   utcClock 2012 7 1 0 0 0, utcClock 2015 7 1 0 0 0, utcClock 2017 1 1 0 0 0]

/-- Number of leap seconds inserted strictly after clock instant `t1` and
at or before clock instant `t2`. -/
def leapCount (t1 t2 : Int) : Int :=
  ((leapSecondBoundaries.filter (fun b => decide (t1 < b) && decide (b ≤ t2))).length : Int)

/-- Modelled from the UTC standard (the notebook's time library is external
to this slice): parsing `"YYYY-MM-DD hh:mm"` with `scale="utc"` yields an
instant on a continuous time scale; we represent instants as elapsed
seconds since 1970-01-01 00:00:00 UTC counting leap seconds, so that
differences of instants are true elapsed durations. -/
def timeParse (y m d hh mi : Int) : ℚ :=
  ((utcClock y m d hh mi 0 + leapCount 0 (utcClock y m d hh mi 0) : Int) : ℚ)

/-! ## Notebook bindings that do not depend on any external call
(cell 6 and cell 8 of the notebook). -/

/-- Source: `N = 50`. -/
def N : Nat := 50

/-- Source: `date_launch = time.Time("2011-11-26 15:02", scale="utc")`. -/
def date_launch : ℚ := timeParse 2011 11 26 15 2

/-- Source: `date_arrival = time.Time("2012-08-06 05:17", scale="utc")`. -/
def date_arrival : ℚ := timeParse 2012 8 6 5 17

/-- Source: `tof = date_arrival - date_launch`. -/
def tof : ℚ := date_arrival - date_launch

/-- Modelled from the spec: `poliastro.util.time_range` is not part of this
source slice; it returns `periods` evenly spaced instants from `start` to
`stop` inclusive (the notebook's own recorded output shows the first
sampled instant equal to the launch date). -/
def time_range (start stop : ℚ) (periods : Nat) : List ℚ :=
  (List.range periods).map (fun k : ℕ => start + (stop - start) * (k : ℚ) / ((periods : ℚ) - 1))

/-- Source: `times_vector = time_range(date_launch, end=date_arrival, periods=N)`. -/
def times_vector : List ℚ := time_range date_launch date_arrival N

/-- Modelled from the spec: `poliastro.bodies.Sun.k`, the Sun's
gravitational parameter, is not part of this source slice; its value
(1.32712440018e20 m³/s²) plays no numeric role in the claims. -/
def Sun.k : ℚ := 132712440018 * 10 ^ 9

/-- Source: `color_earth0 = "#3d4cd5"`. -/
def color_earth0 : String := "#3d4cd5"

/-- Source: `color_earthf = "#525fd5"`. -/
def color_earthf : String := "#525fd5"

/-- Source: `color_mars0 = "#ec3941"`. -/
def color_mars0 : String := "#ec3941"

/-- Source: `color_marsf = "#ec1f28"`. -/
def color_marsf : String := "#ec1f28"

/-- Source: `color_sun = "#ffcc00"`. -/
def color_sun : String := "#ffcc00"

/-- Source: `color_orbit = "#888888"`. -/
def color_orbit : String := "#888888"

/-- Source: `color_trans = "#444444"`. -/
def color_trans : String := "#444444"

/-! ## Semantic model of the notebook's execution -/

/-- Cartesian position or velocity vector (the `.xyz` components);
components are exact rationals standing for the external library's
physical quantities. -/
abbrev Vec3 : Type := ℚ × ℚ × ℚ

/-- Errors a run can end with: an exception raised by an external call
(carrying its message), or the `ValueError` Python raises when the
destructuring `(va, vb), = ...` receives an iterable of `n ≠ 1` items. -/
inductive Err : Type where
  | external (msg : String)
  | unpackMismatch (n : Nat)
deriving DecidableEq

/-- An orbit of the attractor, as a state vector at an epoch. -/
structure Orbit : Type where
  attractor : String
  r : Vec3
  v : Vec3
  epoch : ℚ
deriving DecidableEq

/-- Modelled from the spec: `poliastro.twobody.Orbit.from_vectors` is not
part of this source slice; per the spec's Kepler-propagator interface it
packages a state vector `(r, v)` at an `epoch` around an attractor. -/
def Orbit.from_vectors (attractor : String) (r v : Vec3) (epoch : ℚ) : Orbit :=
  { attractor := attractor, r := r, v := v, epoch := epoch }

/-- The external collaborators the notebook calls, as oracles.  Each can
raise (return an error), matching the spec's error-handling section.
`bodyPosvel` follows the spec's ephemeris interface: body identifier and a
single time give that body's position and velocity. -/
structure Oracles : Type where
  bodyPosvel : String → ℚ → Except Err (Vec3 × Vec3)
  lambert : ℚ → Vec3 → Vec3 → ℚ → Except Err (List (Vec3 × Vec3))
  propagate : Orbit → List ℚ → Except Err (List Vec3)
  renderTrajectory : List Vec3 → String → String → Except Err Unit

/-- Evaluate `f` left to right over a list, stopping at the first error. -/
def traverseE {α β : Type} (f : α → Except Err β) : List α → Except Err (List β)
  | [] => Except.ok []
  | a :: as =>
    match f a with
    | Except.error e => Except.error e
    | Except.ok b =>
      match traverseE f as with
      | Except.error e => Except.error e
      | Except.ok bs => Except.ok (b :: bs)

/-- `get_body_barycentric_posvel(body, times)`: looks the body up at every
requested time and returns the list of positions and the list of
velocities (the notebook's `rr_*, vv_*` pair). -/
def get_body_barycentric_posvel (O : Oracles) (body : String) (times : List ℚ) :
    Except Err (List Vec3 × List Vec3) :=
  match traverseE (O.bodyPosvel body) times with
  | Except.error e => Except.error e
  | Except.ok pvs => Except.ok (pvs.map (fun pv => pv.1), pvs.map (fun pv => pv.2))

/-- Externally visible effects of a run, in the order they happen. -/
inductive Event : Type where
  | setEphemeris (source : String)
  | posvelLookup (body : String) (times : List ℚ)
  | lambertCall (mu : ℚ) (r0 rf : Vec3) (tofArg : ℚ)
  | setAttractor (body : String)
  | propagateCall (orbit : Orbit) (tofs : List ℚ)
  | plotTrajectory (positions : List Vec3) (label color : String)
  | setView
deriving DecidableEq

/-- The notebook's bindings and figure at the end of a successful run. -/
structure NotebookRun : Type where
  rr_earth : List Vec3
  vv_earth : List Vec3
  rr_mars : List Vec3
  vv_mars : List Vec3
  r0 : Vec3
  rf : Vec3
  va : Vec3
  vb : Vec3
  ss0_trans : Orbit
  ssf_trans : Orbit
  figure : List (List Vec3 × String × String)
deriving DecidableEq

/-- The notebook's code cells, statement by statement, as a function of
the external collaborators.  Returns the final bindings (or the error the
run terminated with) together with the trace of external effects. -/
def runNotebook (O : Oracles) : Except Err NotebookRun × List Event :=
  -- cell 4: `solar_system_ephemeris.set("jpl")`
  let ev0 : List Event := [Event.setEphemeris "jpl"]
  -- cell 6 (`N`, `date_launch`, `date_arrival`, `tof`) and cell 8
  -- (`times_vector`) are the pure top-level bindings defined above.
  -- cell 9: `rr_earth, vv_earth = get_body_barycentric_posvel("earth", times_vector)`
  let ev1 := ev0 ++ [Event.posvelLookup "earth" times_vector]
  match get_body_barycentric_posvel O "earth" times_vector with
  | Except.error e => (Except.error e, ev1)
  | Except.ok (rr_earth, vv_earth) =>
    -- cell 12: `rr_mars, vv_mars = get_body_barycentric_posvel("mars", times_vector)`
    let ev2 := ev1 ++ [Event.posvelLookup "mars" times_vector]
    match get_body_barycentric_posvel O "mars" times_vector with
    | Except.error e => (Except.error e, ev2)
    | Except.ok (rr_mars, vv_mars) =>
      -- cell 17: `r0 = rr_earth[0].xyz` and `rf = rr_mars[-1].xyz`
      -- (both lists have one entry per sampled epoch, so they are nonempty
      -- and the defaults below are never consulted)
      let r0 := rr_earth.headD (0, 0, 0)
      let rf := rr_mars.getLastD (0, 0, 0)
      -- cell 17: `(va, vb), = iod.lambert(Sun.k, r0, rf, tof)`
      let ev3 := ev2 ++ [Event.lambertCall Sun.k r0 rf tof]
      match O.lambert Sun.k r0 rf tof with
      | Except.error e => (Except.error e, ev3)
      | Except.ok pairs =>
        match pairs with
        | [(va, vb)] =>
          -- cell 17: `ss0_trans = Orbit.from_vectors(Sun, r0, va, date_launch)`
          let ss0_trans := Orbit.from_vectors "Sun" r0 va date_launch
          -- cell 17: `ssf_trans = Orbit.from_vectors(Sun, rf, vb, date_arrival)`
          let ssf_trans := Orbit.from_vectors "Sun" rf vb date_arrival
          -- cell 19: `fig = FigureWidget()`, `frame = OrbitPlotter3D(figure=fig)`,
          -- `frame.set_attractor(Sun)`
          let ev4 := ev3 ++ [Event.setAttractor "Sun"]
          -- cell 19: `frame.plot_trajectory(rr_earth, label=Earth, color=color_earth0)`
          let ev5 := ev4 ++ [Event.plotTrajectory rr_earth "Earth" color_earth0]
          match O.renderTrajectory rr_earth "Earth" color_earth0 with
          | Except.error e => (Except.error e, ev5)
          | Except.ok _ =>
            -- cell 19: `frame.plot_trajectory(rr_mars, label=Mars, color=color_marsf)`
            let ev6 := ev5 ++ [Event.plotTrajectory rr_mars "Mars" color_marsf]
            match O.renderTrajectory rr_mars "Mars" color_marsf with
            | Except.error e => (Except.error e, ev6)
            | Except.ok _ =>
              -- cell 19: `frame.plot_trajectory(propagate(ss0_trans,
              --   time.TimeDelta(times_vector - ss0_trans.epoch)), ...)`:
              -- the argument, the propagation, is evaluated first
              let offsets := times_vector.map (fun t => t - ss0_trans.epoch)
              let ev7 := ev6 ++ [Event.propagateCall ss0_trans offsets]
              match O.propagate ss0_trans offsets with
              | Except.error e => (Except.error e, ev7)
              | Except.ok traj =>
                let ev8 := ev7 ++ [Event.plotTrajectory traj "MSL trajectory" color_trans]
                match O.renderTrajectory traj "MSL trajectory" color_trans with
                | Except.error e => (Except.error e, ev8)
                | Except.ok _ =>
                  -- cell 19: `frame.set_view(...)`, `fig.layout.title = ...`, `fig`
                  let ev9 := ev8 ++ [Event.setView]
                  (Except.ok
                    { rr_earth := rr_earth, vv_earth := vv_earth,
                      rr_mars := rr_mars, vv_mars := vv_mars,
                      r0 := r0, rf := rf, va := va, vb := vb,
                      ss0_trans := ss0_trans, ssf_trans := ssf_trans,
                      figure := [(rr_earth, "Earth", color_earth0),
                                 (rr_mars, "Mars", color_marsf),
                                 (traj, "MSL trajectory", color_trans)] },
                    ev9)
        | _ => (Except.error (Err.unpackMismatch pairs.length), ev3)

/-! ## The notebook with the `ssf_trans` assignment removed
(the comparison program of the dead-store claim). -/

/-- Final bindings of the ablated program: as `NotebookRun` but without
the `ssf_trans` field. -/
structure NotebookRunA : Type where
  rr_earth : List Vec3
  vv_earth : List Vec3
  rr_mars : List Vec3
  vv_mars : List Vec3
  r0 : Vec3
  rf : Vec3
  va : Vec3
  vb : Vec3
  ss0_trans : Orbit
  figure : List (List Vec3 × String × String)
deriving DecidableEq

/-- `runNotebook` with the single statement
`ssf_trans = Orbit.from_vectors(Sun, rf, vb, date_arrival)` removed;
everything else is statement for statement the same. -/
def runNotebookAblated (O : Oracles) : Except Err NotebookRunA × List Event :=
  let ev0 : List Event := [Event.setEphemeris "jpl"]
  let ev1 := ev0 ++ [Event.posvelLookup "earth" times_vector]
  match get_body_barycentric_posvel O "earth" times_vector with
  | Except.error e => (Except.error e, ev1)
  | Except.ok (rr_earth, vv_earth) =>
    let ev2 := ev1 ++ [Event.posvelLookup "mars" times_vector]
    match get_body_barycentric_posvel O "mars" times_vector with
    | Except.error e => (Except.error e, ev2)
    | Except.ok (rr_mars, vv_mars) =>
      let r0 := rr_earth.headD (0, 0, 0)
      let rf := rr_mars.getLastD (0, 0, 0)
      let ev3 := ev2 ++ [Event.lambertCall Sun.k r0 rf tof]
      match O.lambert Sun.k r0 rf tof with
      | Except.error e => (Except.error e, ev3)
      | Except.ok pairs =>
        match pairs with
        | [(va, vb)] =>
          let ss0_trans := Orbit.from_vectors "Sun" r0 va date_launch
          let ev4 := ev3 ++ [Event.setAttractor "Sun"]
          let ev5 := ev4 ++ [Event.plotTrajectory rr_earth "Earth" color_earth0]
          match O.renderTrajectory rr_earth "Earth" color_earth0 with
          | Except.error e => (Except.error e, ev5)
          | Except.ok _ =>
            let ev6 := ev5 ++ [Event.plotTrajectory rr_mars "Mars" color_marsf]
            match O.renderTrajectory rr_mars "Mars" color_marsf with
            | Except.error e => (Except.error e, ev6)
            | Except.ok _ =>
              let offsets := times_vector.map (fun t => t - ss0_trans.epoch)
              let ev7 := ev6 ++ [Event.propagateCall ss0_trans offsets]
              match O.propagate ss0_trans offsets with
              | Except.error e => (Except.error e, ev7)
              | Except.ok traj =>
                let ev8 := ev7 ++ [Event.plotTrajectory traj "MSL trajectory" color_trans]
                match O.renderTrajectory traj "MSL trajectory" color_trans with
                | Except.error e => (Except.error e, ev8)
                | Except.ok _ =>
                  let ev9 := ev8 ++ [Event.setView]
                  (Except.ok
                    { rr_earth := rr_earth, vv_earth := vv_earth,
                      rr_mars := rr_mars, vv_mars := vv_mars,
                      r0 := r0, rf := rf, va := va, vb := vb,
                      ss0_trans := ss0_trans,
                      figure := [(rr_earth, "Earth", color_earth0),
                                 (rr_mars, "Mars", color_marsf),
                                 (traj, "MSL trajectory", color_trans)] },
                    ev9)
        | _ => (Except.error (Err.unpackMismatch pairs.length), ev3)

/-- Observable outcome of a run: the error it ended with, or the figure it
built (the three plotted trajectories with their labels and colors). -/
def figureOf (run : Except Err NotebookRun × List Event) :
    Except Err (List (List Vec3 × String × String)) :=
  match run.1 with
  | Except.error e => Except.error e
  | Except.ok res => Except.ok res.figure

/-- Observable outcome of an ablated run. -/
def figureOfA (run : Except Err NotebookRunA × List Event) :
    Except Err (List (List Vec3 × String × String)) :=
  match run.1 with
  | Except.error e => Except.error e
  | Except.ok res => Except.ok res.figure

/-! ## Syntactic model: the notebook's executable statements in source
order -/

/-- The statement forms occurring in the notebook's code cells, plus the
error-handling and concurrency forms Python offers but the notebook never
uses (`tryExcept`, `spawnThread`).  Variable references are carried as
their source names. -/
inductive Stmt : Type where
  | importStmt (module : String) (names : List String)
  | ephemSet (source : String)
  | assignInt (target : String) (value : Int)
  | assignStr (target : String) (value : String)
  | assignTimeParse (target : String) (timeString scale : String)
  | assignSub (target : String) (lhs rhs : String)
  | display (expr : String)
  | assignTimeRange (target : String) (start stop periods : String)
  | assignPosvel (posTarget velTarget : String) (body timesArg : String)
  | assignIndexHead (target source : String)
  | assignIndexLast (target source : String)
  | unpackLambert (vaTarget vbTarget : String) (muArg r0Arg rfArg tofArg : String)
  | assignFromVectors (target attractorArg rArg vArg epochArg : String)
  | assignFigureWidget (target : String)
  | assignOrbitPlotter (target figArg : String)
  | setAttractor (frameArg bodyArg : String)
  | plotTrajectoryVar (frameArg trajVar labelVar colorVar : String)
  | plotTrajectoryPropagate (frameArg orbitArg timesArg labelLit colorVar : String)
  | setView (frameArg : String)
  | assignAttr (target attr value : String)
  | tryExcept
  | spawnThread
deriving DecidableEq

/-- The executable statements of the notebook's code cells, in source
order (cell 21 holds only a comment and contributes nothing). -/
def notebookStmts : List Stmt :=
  [ -- cell 2
   Stmt.importStmt "numpy" ["np"],
   Stmt.importStmt "astropy.units" ["u"],
   Stmt.importStmt "astropy" ["time"],
   Stmt.importStmt "poliastro" ["iod"],
   Stmt.importStmt "poliastro.bodies" ["Sun"],
   Stmt.importStmt "poliastro.twobody" ["Orbit"],
   Stmt.importStmt "poliastro.twobody.propagation" ["propagate"],
   Stmt.importStmt "poliastro.util" ["time_range"],
   -- cell 4
   Stmt.importStmt "astropy.coordinates" ["solar_system_ephemeris", "get_body_barycentric_posvel"],
   Stmt.ephemSet "jpl",
   -- cell 6
   Stmt.assignInt "N" 50,
   Stmt.assignTimeParse "date_launch" "2011-11-26 15:02" "utc",
   Stmt.assignTimeParse "date_arrival" "2012-08-06 05:17" "utc",
   Stmt.assignSub "tof" "date_arrival" "date_launch",
   Stmt.display "tof.to(u.h)",
   -- cell 8
   Stmt.assignTimeRange "times_vector" "date_launch" "date_arrival" "N",
   Stmt.display "times_vector[:5]",
   -- cell 9
   Stmt.assignPosvel "rr_earth" "vv_earth" "earth" "times_vector",
   -- cells 10, 11
   Stmt.display "rr_earth[:3]",
   Stmt.display "vv_earth[:3]",
   -- cell 12
   Stmt.assignPosvel "rr_mars" "vv_mars" "mars" "times_vector",
   -- cells 13, 14
   Stmt.display "rr_mars[:3]",
   Stmt.display "vv_mars[:3]",
   -- cell 17
   Stmt.assignIndexHead "r0" "rr_earth",
   Stmt.assignIndexLast "rf" "rr_mars",
   Stmt.unpackLambert "va" "vb" "Sun.k" "r0" "rf" "tof",
   Stmt.assignFromVectors "ss0_trans" "Sun" "r0" "va" "date_launch",
   Stmt.assignFromVectors "ssf_trans" "Sun" "rf" "vb" "date_arrival",
   -- cell 18
   Stmt.importStmt "poliastro.plotting" ["OrbitPlotter3D"],
   Stmt.importStmt "poliastro.bodies" ["Earth", "Mars"],
   Stmt.importStmt "plotly.graph_objs" ["FigureWidget"],
   -- cell 19
   Stmt.assignStr "color_earth0" "#3d4cd5",
   Stmt.assignStr "color_earthf" "#525fd5",
   Stmt.assignStr "color_mars0" "#ec3941",
   Stmt.assignStr "color_marsf" "#ec1f28",
   Stmt.assignStr "color_sun" "#ffcc00",
   Stmt.assignStr "color_orbit" "#888888",
   Stmt.assignStr "color_trans" "#444444",
   Stmt.assignFigureWidget "fig",
   Stmt.assignOrbitPlotter "frame" "fig",
   Stmt.setAttractor "frame" "Sun",
   Stmt.plotTrajectoryVar "frame" "rr_earth" "Earth" "color_earth0",
   Stmt.plotTrajectoryVar "frame" "rr_mars" "Mars" "color_marsf",
   Stmt.plotTrajectoryPropagate "frame" "ss0_trans" "times_vector" "MSL trajectory" "color_trans",
   Stmt.setView "frame",
   Stmt.assignAttr "fig" "layout.title" "MSL Mission: from Earth to Mars",
   Stmt.display "fig",
   -- cell 23
   Stmt.importStmt "IPython.display" ["YouTubeVideo"],
   Stmt.display "YouTubeVideo"]

/-- Is the statement a `get_body_barycentric_posvel` (ephemeris lookup)
call? -/
def isEphemLookupStmt : Stmt → Bool
  | Stmt.assignPosvel _ _ _ _ => true
  | _ => false

/-- Is the statement an `iod.lambert` call? -/
def isLambertStmt : Stmt → Bool
  | Stmt.unpackLambert _ _ _ _ _ _ => true
  | _ => false

/-- Is the statement a `frame.plot_trajectory(...)` call? -/
def isPlotStmt : Stmt → Bool
  | Stmt.plotTrajectoryVar _ _ _ _ => true
  | Stmt.plotTrajectoryPropagate _ _ _ _ _ => true
  | _ => false

/-- The variable names a statement reads (the display of a bare variable
reads it; string literals such as a propagate-plot's label are not
variable reads). -/
def stmtReads : Stmt → List String
  | Stmt.importStmt _ _ => []
  | Stmt.ephemSet _ => []
  | Stmt.assignInt _ _ => []
  | Stmt.assignStr _ _ => []
  | Stmt.assignTimeParse _ _ _ => []
  | Stmt.assignSub _ lhs rhs => [lhs, rhs]
  | Stmt.display e => [e]
  | Stmt.assignTimeRange _ start stop periods => [start, stop, periods]
  | Stmt.assignPosvel _ _ _ timesArg => [timesArg]
  | Stmt.assignIndexHead _ src => [src]
  | Stmt.assignIndexLast _ src => [src]
  | Stmt.unpackLambert _ _ muArg r0Arg rfArg tofArg => [muArg, r0Arg, rfArg, tofArg]
  | Stmt.assignFromVectors _ attractorArg rArg vArg epochArg =>
      [attractorArg, rArg, vArg, epochArg]
  | Stmt.assignFigureWidget _ => []
  | Stmt.assignOrbitPlotter _ figArg => [figArg]
  | Stmt.setAttractor frameArg bodyArg => [frameArg, bodyArg]
  | Stmt.plotTrajectoryVar frameArg trajVar labelVar colorVar =>
      [frameArg, trajVar, labelVar, colorVar]
  | Stmt.plotTrajectoryPropagate frameArg orbitArg timesArg _ colorVar =>
      [frameArg, orbitArg, timesArg, colorVar]
  | Stmt.setView frameArg => [frameArg]
  | Stmt.assignAttr _ _ _ => []
  | Stmt.tryExcept => []
  | Stmt.spawnThread => []

/-- Raw-source line (in the `.ipynb` JSON) of the statement an event's
external call belongs to.  The third `plot_trajectory` statement spans
lines 334-338 and contains the `propagate` call as its argument, so both
its events carry line 334. -/
def eventLine : Event → Nat
  | Event.setEphemeris _ => 69
  | Event.posvelLookup body _ => if body = "earth" then 145 else 200
  | Event.lambertCall _ _ _ _ => 273
  | Event.setAttractor _ => 329
  | Event.propagateCall _ _ => 334
  | Event.plotTrajectory _ label _ =>
      if label = "Earth" then 331 else if label = "Mars" then 332 else 334
  | Event.setView => 340

/-- Line count of the notebook source file
`docs/source/examples/Going to Mars with Python using poliastro.ipynb`:
the file holds 426 newline characters plus a final line (the closing
brace) with no trailing newline, hence 427 lines. -/
def sourceLineCount : Nat := 427

/-! ## Helper lemmas -/

/-- A successful traversal returns one output per input. -/
theorem traverseE_ok_length {α β : Type} (f : α → Except Err β) :
    ∀ (l : List α) (ys : List β), traverseE f l = Except.ok ys → ys.length = l.length := by
  intro l
  induction l with
  | nil =>
    intro ys h
    simp only [traverseE] at h
    injection h with h
    subst h
    rfl
  | cons a as ih =>
    intro ys h
    simp only [traverseE] at h
    rcases hfa : f a with e | b <;> rw [hfa] at h
    · exact absurd h (by simp)
    rcases hrest : traverseE f as with e | bs <;> rw [hrest] at h
    · exact absurd h (by simp)
    injection h with h
    subst h
    simp [ih bs hrest]

/-- A successful ephemeris lookup returns one position and one velocity
per requested time. -/
theorem get_body_posvel_lengths (O : Oracles) (body : String) (times : List ℚ)
    (rr vv : List Vec3) (h : get_body_barycentric_posvel O body times = Except.ok (rr, vv)) :
    rr.length = times.length ∧ vv.length = times.length := by
  simp only [get_body_barycentric_posvel] at h
  rcases ht : traverseE (O.bodyPosvel body) times with e | pvs <;> rw [ht] at h
  · exact absurd h (by simp)
  injection h with h
  have hlen := traverseE_ok_length (O.bodyPosvel body) times pvs ht
  obtain ⟨h1, h2⟩ := Prod.mk.injEq .. ▸ h
  constructor
  · rw [← h1]; simp [hlen]
  · rw [← h2]; simp [hlen]

/-- `times_vector` holds `N = 50` epochs. -/
theorem times_vector_length : times_vector.length = 50 := by
  rw [times_vector, time_range, List.length_map, List.length_range, N]

/-- The first sampled epoch is the launch date. -/
theorem times_vector_head : times_vector.headD 0 = date_launch := by
  unfold times_vector time_range N
  rw [List.range_succ_eq_map]
  simp

/-- The last sampled epoch is the arrival date. -/
theorem times_vector_last : times_vector.getLastD 0 = date_arrival := by
  unfold times_vector time_range N
  rw [List.range_succ]
  simp [List.getLastD_concat]
  norm_num

/-- Elimination principle for a successful run: the oracle responses it
consumed, the final bindings, and the full effect trace. -/
theorem runNotebook_ok_elim (O : Oracles) (res : NotebookRun) (tr : List Event)
    (h : runNotebook O = (Except.ok res, tr)) :
    ∃ rrE vvE rrM vvM va vb traj,
      get_body_barycentric_posvel O "earth" times_vector = Except.ok (rrE, vvE) ∧
      get_body_barycentric_posvel O "mars" times_vector = Except.ok (rrM, vvM) ∧
      O.lambert Sun.k (rrE.headD (0, 0, 0)) (rrM.getLastD (0, 0, 0)) tof =
        Except.ok [(va, vb)] ∧
      O.propagate (Orbit.from_vectors "Sun" (rrE.headD (0, 0, 0)) va date_launch)
        (times_vector.map (fun t => t - date_launch)) = Except.ok traj ∧
      res = { rr_earth := rrE, vv_earth := vvE, rr_mars := rrM, vv_mars := vvM,
              r0 := rrE.headD (0, 0, 0), rf := rrM.getLastD (0, 0, 0), va := va, vb := vb,
              ss0_trans := Orbit.from_vectors "Sun" (rrE.headD (0, 0, 0)) va date_launch,
              ssf_trans := Orbit.from_vectors "Sun" (rrM.getLastD (0, 0, 0)) vb date_arrival,
              figure := [(rrE, "Earth", color_earth0), (rrM, "Mars", color_marsf),
                         (traj, "MSL trajectory", color_trans)] } ∧
      tr = [Event.setEphemeris "jpl",
            Event.posvelLookup "earth" times_vector,
            Event.posvelLookup "mars" times_vector,
            Event.lambertCall Sun.k (rrE.headD (0, 0, 0)) (rrM.getLastD (0, 0, 0)) tof,
            Event.setAttractor "Sun",
            Event.plotTrajectory rrE "Earth" color_earth0,
            Event.plotTrajectory rrM "Mars" color_marsf,
            Event.propagateCall (Orbit.from_vectors "Sun" (rrE.headD (0, 0, 0)) va date_launch)
              (times_vector.map (fun t => t - date_launch)),
            Event.plotTrajectory traj "MSL trajectory" color_trans,
            Event.setView] := by
  simp only [runNotebook] at h
  split at h
  · simp at h
  rename_i rrE vvE hE
  split at h
  · simp at h
  rename_i rrM vvM hM
  split at h
  · simp at h
  rename_i pairs hL
  split at h
  case _ va vb =>
    split at h
    · simp at h
    rename_i u1 hR1
    split at h
    · simp at h
    rename_i u2 hR2
    split at h
    · simp at h
    rename_i traj hP
    split at h
    · simp at h
    rename_i u3 hR3
    rw [Prod.mk.injEq] at h
    obtain ⟨h1, h2⟩ := h
    injection h1 with h1
    refine ⟨rrE, vvE, rrM, vvM, va, vb, traj, hE, hM, hL, ?_, h1.symm, h2.symm⟩
    simpa [Orbit.from_vectors] using hP
  case _ =>
    simp at h

/-- Pointwise content of a successful traversal: the `i`-th output is
`f` applied to the `i`-th input. -/
theorem traverseE_ok_getElem {α β : Type} (f : α → Except Err β) :
    ∀ (l : List α) (ys : List β), traverseE f l = Except.ok ys →
      ∀ (i : Nat) (a : α), l[i]? = some a → ∃ b, ys[i]? = some b ∧ f a = Except.ok b := by
  intro l
  induction l with
  | nil =>
    intro ys h i a ha
    simp at ha
  | cons x xs ih =>
    intro ys h i a ha
    simp only [traverseE] at h
    rcases hfx : f x with e | y <;> rw [hfx] at h
    · exact absurd h (by simp)
    rcases hrest : traverseE f xs with e | zs <;> rw [hrest] at h
    · exact absurd h (by simp)
    injection h with h
    subst h
    cases i with
    | zero =>
      refine ⟨y, by simp, ?_⟩
      simp only [List.getElem?_cons_zero] at ha
      injection ha with ha
      rw [← ha]
      exact hfx
    | succ j =>
      simp only [List.getElem?_cons_succ] at ha
      obtain ⟨b, hb1, hb2⟩ := ih zs hrest j a ha
      exact ⟨b, by simpa using hb1, hb2⟩

/-- The epoch at index 0 of `times_vector` is the launch date. -/
theorem times_vector_getElem_zero : times_vector[0]? = some date_launch := by
  unfold times_vector time_range N
  rw [List.range_succ_eq_map]
  simp

/-- The epoch at index 49 of `times_vector` is the arrival date. -/
theorem times_vector_getElem_49 : times_vector[49]? = some date_arrival := by
  unfold times_vector time_range N
  rw [List.getElem?_map]
  simp [List.getElem?_range]
  norm_num

/-- Is the event a Lambert-solver invocation? -/
def isLambertCallEvent : Event → Bool
  | Event.lambertCall _ _ _ _ => true
  | _ => false

/-- Is the event an ephemeris lookup? -/
def isLookupEvent : Event → Bool
  | Event.posvelLookup _ _ => true
  | _ => false

/-- Is the event a trajectory-drawing call? -/
def isPlotEvent : Event → Bool
  | Event.plotTrajectory _ _ _ => true
  | _ => false

/-! ## Concrete collaborators used to witness the theorems -/

/-- Oracles that always answer, with recognisable constants. -/
def sampleOracles : Oracles where
  bodyPosvel := fun _ _ => Except.ok ((1, 2, 3), (4, 5, 6))
  lambert := fun _ _ _ _ => Except.ok [((7, 8, 9), (10, 11, 12))]
  propagate := fun _ tofs => Except.ok (tofs.map (fun _ => (13, 14, 15)))
  renderTrajectory := fun _ _ _ => Except.ok ()

/-- The final bindings of the sample run. -/
def sampleRes : NotebookRun :=
  match (runNotebook sampleOracles).1 with
  | Except.ok r => r
  | Except.error _ =>
    { rr_earth := [], vv_earth := [], rr_mars := [], vv_mars := [],
      r0 := (0, 0, 0), rf := (0, 0, 0), va := (0, 0, 0), vb := (0, 0, 0),
      ss0_trans := Orbit.from_vectors "" (0, 0, 0) (0, 0, 0) 0,
      ssf_trans := Orbit.from_vectors "" (0, 0, 0) (0, 0, 0) 0, figure := [] }

/-- The sample run succeeds. -/
theorem sampleRun_ok :
    runNotebook sampleOracles = (Except.ok sampleRes, (runNotebook sampleOracles).2) := rfl

/-- Oracles whose ephemeris is unavailable. -/
def failingOracles : Oracles where
  bodyPosvel := fun _ _ => Except.error (Err.external "missing ephemeris data")
  lambert := fun _ _ _ _ => Except.ok [((7, 8, 9), (10, 11, 12))]
  propagate := fun _ tofs => Except.ok (tofs.map (fun _ => (13, 14, 15)))
  renderTrajectory := fun _ _ _ => Except.ok ()

/-- Oracles whose Lambert solver returns two conic solutions. -/
def twoPairOracles : Oracles where
  bodyPosvel := fun _ _ => Except.ok ((1, 2, 3), (4, 5, 6))
  lambert := fun _ _ _ _ =>
    Except.ok [((7, 8, 9), (10, 11, 12)), ((16, 17, 18), (19, 20, 21))]
  propagate := fun _ tofs => Except.ok (tofs.map (fun _ => (13, 14, 15)))
  renderTrajectory := fun _ _ _ => Except.ok ()

/-- The notebook's time of flight is 21910501 elapsed seconds. -/
theorem tof_val : tof = 21910501 := by
  have h : (utcClock 2012 8 6 5 17 0 + leapCount 0 (utcClock 2012 8 6 5 17 0)) -
      (utcClock 2011 11 26 15 2 0 + leapCount 0 (utcClock 2011 11 26 15 2 0)) = 21910501 := by
    decide
  unfold tof date_arrival date_launch timeParse
  rw [← Int.cast_sub, h]
  norm_num

/-! ## The claims -/

/-- C5: the time of flight passed to the Lambert solver is
`tof = date_arrival - date_launch`, the elapsed duration between the
departure epoch 2011-11-26 15:02 UTC and the arrival epoch
2012-08-06 05:17 UTC; the UTC wall-clock span between those readings is
exactly 253 days 14 hours 15 minutes, the only leap second in the
interval is the one inserted at the end of 2012-06-30, `tof` is that
wall-clock span plus this one leap second, and `tof` in hours rounds at
eight decimals to the displayed value 6086.25027778 h, whereas the bare
wall-clock span would display as exactly 6086.25 h. -/
theorem C5_time_of_flight :
    tof = date_arrival - date_launch ∧
    utcClock 2012 8 6 5 17 0 - utcClock 2011 11 26 15 2 0 =
      253 * 86400 + 14 * 3600 + 15 * 60 ∧
    (leapSecondBoundaries.filter (fun b =>
        decide (utcClock 2011 11 26 15 2 0 < b) &&
        decide (b ≤ utcClock 2012 8 6 5 17 0))) = [utcClock 2012 7 1 0 0 0] ∧
    tof = ((253 * 86400 + 14 * 3600 + 15 * 60 + 1 : Int) : ℚ) ∧
    ((608625027778 : ℚ) - 1 / 2 ≤ tof / 3600 * 10 ^ 8 ∧
      tof / 3600 * 10 ^ 8 < 608625027778 + 1 / 2) ∧
    (21910500 : ℚ) / 3600 = 6086 + 1 / 4 := by
  refine ⟨rfl, by decide, by decide, ?_, ⟨?_, ?_⟩, by norm_num⟩
  · rw [tof_val]; norm_num
  · rw [tof_val]; norm_num
  · rw [tof_val]; norm_num

/-- C3, counterexample: the notebook does not contain exactly one Lambert
call, one ephemeris-lookup call and one plotting call in a 428-line
source: the ephemeris lookup is called twice, `plot_trajectory` three
times, and the file has 427 lines. -/
theorem C3_counterexample :
    ¬((notebookStmts.filter isLambertStmt).length = 1 ∧
      (notebookStmts.filter isEphemLookupStmt).length = 1 ∧
      (notebookStmts.filter isPlotStmt).length = 1 ∧
      sourceLineCount = 428) := by
  decide

/-- C3, amended: the notebook's executable content contains exactly one
call to the library's Lambert solver, exactly two calls to ephemeris
lookup, and exactly three `plot_trajectory` calls (and the source is
427 lines of notebook markup). -/
theorem C3_amended :
    (notebookStmts.filter isLambertStmt).length = 1 ∧
    (notebookStmts.filter isEphemLookupStmt).length = 2 ∧
    (notebookStmts.filter isPlotStmt).length = 3 ∧
    sourceLineCount = 427 := by
  decide

/-- C8: execution is a single linear sequence of statements.  The
notebook contains no thread-, process- or task-spawning statement, and in
every run (successful or not) the external effects occur in source order:
the source lines of the traced events are nondecreasing along the trace
(the propagation shares the source statement of the third
`plot_trajectory`, whose argument it is). -/
theorem C8_single_linear_sequence :
    notebookStmts.contains Stmt.spawnThread = false ∧
    (∀ O : Oracles,
      List.Chain' (fun a b => a ≤ b) (((runNotebook O).2).map eventLine)) := by
  refine ⟨by decide, ?_⟩
  intro O
  simp only [runNotebook]
  repeat' split
  all_goals simp [eventLine]

/-- C10: the arrival-state transfer orbit `ssf_trans` is a dead store.
Statement 28 of the notebook constructs it, no later statement reads it,
and the program with the construction removed (`runNotebookAblated`) is
observationally equivalent: for every behaviour of the external
collaborators, both programs produce the identical effect trace and the
identical figure (or identical error). -/
theorem C10_ssf_trans_dead_store :
    notebookStmts.getD 27 Stmt.spawnThread =
      Stmt.assignFromVectors "ssf_trans" "Sun" "rf" "vb" "date_arrival" ∧
    ((notebookStmts.drop 28).filter (fun s => (stmtReads s).contains "ssf_trans")) = [] ∧
    (∀ O : Oracles, (runNotebook O).2 = (runNotebookAblated O).2 ∧
      figureOf (runNotebook O) = figureOfA (runNotebookAblated O)) := by
  refine ⟨by decide, by decide, ?_⟩
  intro O
  simp only [runNotebook, runNotebookAblated, figureOf, figureOfA]
  rcases hE : get_body_barycentric_posvel O "earth" times_vector with e | ⟨rrE, vvE⟩
  · simp [hE]
  simp only [hE]
  rcases hM : get_body_barycentric_posvel O "mars" times_vector with e | ⟨rrM, vvM⟩
  · simp [hM]
  simp only [hM]
  rcases hL : O.lambert Sun.k (rrE.headD (0, 0, 0)) (rrM.getLastD (0, 0, 0)) tof
      with e | pairs
  · simp [hL]
  simp only [hL]
  match pairs with
  | [] => simp
  | (va, vb) :: (p :: rest) => simp
  | [(va, vb)] =>
    rcases hR1 : O.renderTrajectory rrE "Earth" color_earth0 with e | u1
    · simp [hR1]
    simp only [hR1]
    rcases hR2 : O.renderTrajectory rrM "Mars" color_marsf with e | u2
    · simp [hR2]
    simp only [hR2]
    rcases hP : O.propagate (Orbit.from_vectors "Sun" (rrE.headD (0, 0, 0)) va date_launch)
        (times_vector.map (fun t =>
          t - (Orbit.from_vectors "Sun" (rrE.headD (0, 0, 0)) va date_launch).epoch))
        with e | traj
    · simp [hP]
    simp only [hP]
    rcases hR3 : O.renderTrajectory traj "MSL trajectory" color_trans with e | u3
    · simp [hR3]
    simp [hR3]

/-- C6: the program defines no local error handling: no statement is a
try/except, and every exception an external call raises (ephemeris
lookup for either body, the Lambert solver, the propagation, or any of
the three renderings) terminates the run with that same exception, the
effect trace stopping at the failing call, so no subsequent cell's
effects occur. -/
theorem C6_no_local_error_handling :
    notebookStmts.contains Stmt.tryExcept = false ∧
    (∀ (O : Oracles) (e : Err),
      get_body_barycentric_posvel O "earth" times_vector = Except.error e →
      runNotebook O = (Except.error e,
        [Event.setEphemeris "jpl", Event.posvelLookup "earth" times_vector])) ∧
    (∀ (O : Oracles) (rrE vvE : List Vec3) (e : Err),
      get_body_barycentric_posvel O "earth" times_vector = Except.ok (rrE, vvE) →
      get_body_barycentric_posvel O "mars" times_vector = Except.error e →
      runNotebook O = (Except.error e,
        [Event.setEphemeris "jpl", Event.posvelLookup "earth" times_vector,
         Event.posvelLookup "mars" times_vector])) ∧
    (∀ (O : Oracles) (rrE vvE rrM vvM : List Vec3) (e : Err),
      get_body_barycentric_posvel O "earth" times_vector = Except.ok (rrE, vvE) →
      get_body_barycentric_posvel O "mars" times_vector = Except.ok (rrM, vvM) →
      O.lambert Sun.k (rrE.headD (0, 0, 0)) (rrM.getLastD (0, 0, 0)) tof = Except.error e →
      runNotebook O = (Except.error e,
        [Event.setEphemeris "jpl", Event.posvelLookup "earth" times_vector,
         Event.posvelLookup "mars" times_vector,
         Event.lambertCall Sun.k (rrE.headD (0, 0, 0)) (rrM.getLastD (0, 0, 0)) tof])) ∧
    (∀ (O : Oracles) (rrE vvE rrM vvM : List Vec3) (va vb : Vec3) (e : Err),
      get_body_barycentric_posvel O "earth" times_vector = Except.ok (rrE, vvE) →
      get_body_barycentric_posvel O "mars" times_vector = Except.ok (rrM, vvM) →
      O.lambert Sun.k (rrE.headD (0, 0, 0)) (rrM.getLastD (0, 0, 0)) tof =
        Except.ok [(va, vb)] →
      O.renderTrajectory rrE "Earth" color_earth0 = Except.error e →
      runNotebook O = (Except.error e,
        [Event.setEphemeris "jpl", Event.posvelLookup "earth" times_vector,
         Event.posvelLookup "mars" times_vector,
         Event.lambertCall Sun.k (rrE.headD (0, 0, 0)) (rrM.getLastD (0, 0, 0)) tof,
         Event.setAttractor "Sun",
         Event.plotTrajectory rrE "Earth" color_earth0])) ∧
    (∀ (O : Oracles) (rrE vvE rrM vvM : List Vec3) (va vb : Vec3) (e : Err),
      get_body_barycentric_posvel O "earth" times_vector = Except.ok (rrE, vvE) →
      get_body_barycentric_posvel O "mars" times_vector = Except.ok (rrM, vvM) →
      O.lambert Sun.k (rrE.headD (0, 0, 0)) (rrM.getLastD (0, 0, 0)) tof =
        Except.ok [(va, vb)] →
      O.renderTrajectory rrE "Earth" color_earth0 = Except.ok () →
      O.renderTrajectory rrM "Mars" color_marsf = Except.error e →
      runNotebook O = (Except.error e,
        [Event.setEphemeris "jpl", Event.posvelLookup "earth" times_vector,
         Event.posvelLookup "mars" times_vector,
         Event.lambertCall Sun.k (rrE.headD (0, 0, 0)) (rrM.getLastD (0, 0, 0)) tof,
         Event.setAttractor "Sun",
         Event.plotTrajectory rrE "Earth" color_earth0,
         Event.plotTrajectory rrM "Mars" color_marsf])) ∧
    (∀ (O : Oracles) (rrE vvE rrM vvM : List Vec3) (va vb : Vec3) (e : Err),
      get_body_barycentric_posvel O "earth" times_vector = Except.ok (rrE, vvE) →
      get_body_barycentric_posvel O "mars" times_vector = Except.ok (rrM, vvM) →
      O.lambert Sun.k (rrE.headD (0, 0, 0)) (rrM.getLastD (0, 0, 0)) tof =
        Except.ok [(va, vb)] →
      O.renderTrajectory rrE "Earth" color_earth0 = Except.ok () →
      O.renderTrajectory rrM "Mars" color_marsf = Except.ok () →
      O.propagate (Orbit.from_vectors "Sun" (rrE.headD (0, 0, 0)) va date_launch)
        (times_vector.map (fun t => t - date_launch)) = Except.error e →
      runNotebook O = (Except.error e,
        [Event.setEphemeris "jpl", Event.posvelLookup "earth" times_vector,
         Event.posvelLookup "mars" times_vector,
         Event.lambertCall Sun.k (rrE.headD (0, 0, 0)) (rrM.getLastD (0, 0, 0)) tof,
         Event.setAttractor "Sun",
         Event.plotTrajectory rrE "Earth" color_earth0,
         Event.plotTrajectory rrM "Mars" color_marsf,
         Event.propagateCall (Orbit.from_vectors "Sun" (rrE.headD (0, 0, 0)) va date_launch)
           (times_vector.map (fun t => t - date_launch))])) ∧
    (∀ (O : Oracles) (rrE vvE rrM vvM : List Vec3) (va vb : Vec3) (traj : List Vec3) (e : Err),
      get_body_barycentric_posvel O "earth" times_vector = Except.ok (rrE, vvE) →
      get_body_barycentric_posvel O "mars" times_vector = Except.ok (rrM, vvM) →
      O.lambert Sun.k (rrE.headD (0, 0, 0)) (rrM.getLastD (0, 0, 0)) tof =
        Except.ok [(va, vb)] →
      O.renderTrajectory rrE "Earth" color_earth0 = Except.ok () →
      O.renderTrajectory rrM "Mars" color_marsf = Except.ok () →
      O.propagate (Orbit.from_vectors "Sun" (rrE.headD (0, 0, 0)) va date_launch)
        (times_vector.map (fun t => t - date_launch)) = Except.ok traj →
      O.renderTrajectory traj "MSL trajectory" color_trans = Except.error e →
      runNotebook O = (Except.error e,
        [Event.setEphemeris "jpl", Event.posvelLookup "earth" times_vector,
         Event.posvelLookup "mars" times_vector,
         Event.lambertCall Sun.k (rrE.headD (0, 0, 0)) (rrM.getLastD (0, 0, 0)) tof,
         Event.setAttractor "Sun",
         Event.plotTrajectory rrE "Earth" color_earth0,
         Event.plotTrajectory rrM "Mars" color_marsf,
         Event.propagateCall (Orbit.from_vectors "Sun" (rrE.headD (0, 0, 0)) va date_launch)
           (times_vector.map (fun t => t - date_launch)),
         Event.plotTrajectory traj "MSL trajectory" color_trans])) := by
  refine ⟨by decide, ?_, ?_, ?_, ?_, ?_, ?_, ?_⟩
  · intro O e hE
    simp only [runNotebook, hE]
    simp
  · intro O rrE vvE e hE hM
    simp only [runNotebook, hE, hM]
    simp
  · intro O rrE vvE rrM vvM e hE hM hL
    simp only [runNotebook, hE, hM, hL]
    simp
  · intro O rrE vvE rrM vvM va vb e hE hM hL hR1
    simp only [runNotebook, hE, hM, hL, hR1]
    simp
  · intro O rrE vvE rrM vvM va vb e hE hM hL hR1 hR2
    simp only [runNotebook, hE, hM, hL, hR1, hR2]
    simp
  · intro O rrE vvE rrM vvM va vb e hE hM hL hR1 hR2 hP
    simp only [runNotebook, hE, hM, hL, hR1, hR2]
    simp only [Orbit.from_vectors] at hP
    simp at hP
    simp [Orbit.from_vectors, hP]
  · intro O rrE vvE rrM vvM va vb traj e hE hM hL hR1 hR2 hP hR3
    simp only [runNotebook, hE, hM, hL, hR1, hR2]
    simp only [Orbit.from_vectors] at hP
    simp at hP
    simp [Orbit.from_vectors, hP, hR3]

/-- Witness for C6: with an unavailable ephemeris, the run terminates
with exactly the ephemeris error after only the first two effects. -/
theorem C6_witness :
    runNotebook failingOracles =
      (Except.error (Err.external "missing ephemeris data"),
       [Event.setEphemeris "jpl", Event.posvelLookup "earth" times_vector]) :=
  C6_no_local_error_handling.2.1 failingOracles (Err.external "missing ephemeris data") rfl


/-- C1: every successful run makes exactly one Lambert-solver call, whose
arguments are exactly the Sun's gravitational parameter, the origin
vector (Earth's ephemeris position at the first sampled epoch, the
launch date), the destination vector (Mars' ephemeris position at the
last sampled epoch, the arrival date), and the time of flight; the
returned pair `(va, vb)` is used with those same vectors and epochs to
construct the departure and arrival transfer orbits around the Sun. -/
theorem C1_lambert_call_and_transfer_orbits (O : Oracles) (res : NotebookRun)
    (tr : List Event) (h : runNotebook O = (Except.ok res, tr)) :
    tr.filter (fun ev => isLambertCallEvent ev) =
      [Event.lambertCall Sun.k res.r0 res.rf tof] ∧
    res.r0 = res.rr_earth.headD (0, 0, 0) ∧
    res.rf = res.rr_mars.getLastD (0, 0, 0) ∧
    times_vector.headD 0 = date_launch ∧
    times_vector.getLastD 0 = date_arrival ∧
    (∃ v, O.bodyPosvel "earth" date_launch = Except.ok (res.r0, v)) ∧
    (∃ v, O.bodyPosvel "mars" date_arrival = Except.ok (res.rf, v)) ∧
    O.lambert Sun.k res.r0 res.rf tof = Except.ok [(res.va, res.vb)] ∧
    res.ss0_trans = Orbit.from_vectors "Sun" res.r0 res.va date_launch ∧
    res.ssf_trans = Orbit.from_vectors "Sun" res.rf res.vb date_arrival := by
  obtain ⟨rrE, vvE, rrM, vvM, va, vb, traj, hE, hM, hL, hP, hres, htr⟩ :=
    runNotebook_ok_elim O res tr h
  subst hres
  subst htr
  simp only [get_body_barycentric_posvel] at hE hM
  rcases htE : traverseE (O.bodyPosvel "earth") times_vector with e | pvsE <;> rw [htE] at hE
  · exact absurd hE (by simp)
  rcases htM : traverseE (O.bodyPosvel "mars") times_vector with e | pvsM <;> rw [htM] at hM
  · exact absurd hM (by simp)
  injection hE with hE
  injection hM with hM
  obtain ⟨hE1, hE2⟩ := Prod.mk.injEq .. ▸ hE
  obtain ⟨hM1, hM2⟩ := Prod.mk.injEq .. ▸ hM
  refine ⟨?_, ?_, ?_, times_vector_head, times_vector_last, ?_, ?_, ?_, ?_, ?_⟩
  · simp [isLambertCallEvent]
  · simp
  · simp
  · -- Earth position at the first sampled epoch
    obtain ⟨pv, hpv, hf⟩ :=
      traverseE_ok_getElem (O.bodyPosvel "earth") times_vector pvsE htE 0 date_launch
        times_vector_getElem_zero
    have hr0 : rrE.headD (0, 0, 0) = pv.1 := by
      rw [← hE1, List.headD_eq_head?, List.head?_eq_getElem?, List.getElem?_map, hpv]
      rfl
    refine ⟨pv.2, ?_⟩
    show O.bodyPosvel "earth" date_launch = Except.ok (rrE.headD (0, 0, 0), pv.2)
    rw [hr0]
    exact hf
  · -- Mars position at the last sampled epoch
    have hlenM : pvsM.length = times_vector.length :=
      traverseE_ok_length (O.bodyPosvel "mars") times_vector pvsM htM
    obtain ⟨pv, hpv, hf⟩ :=
      traverseE_ok_getElem (O.bodyPosvel "mars") times_vector pvsM htM 49 date_arrival
        times_vector_getElem_49
    have hrf : rrM.getLastD (0, 0, 0) = pv.1 := by
      rw [← hM1, List.getLastD_eq_getLast?, List.getLast?_eq_getElem?, List.getElem?_map]
      rw [List.length_map, hlenM, times_vector_length]
      rw [hpv]
      rfl
    refine ⟨pv.2, ?_⟩
    show O.bodyPosvel "mars" date_arrival = Except.ok (rrM.getLastD (0, 0, 0), pv.2)
    rw [hrf]
    exact hf
  · simpa using hL
  · simp
  · simp

/-- Witness for C1, at the sample collaborators. -/
theorem C1_witness :
    ((runNotebook sampleOracles).2).filter (fun ev => isLambertCallEvent ev) =
      [Event.lambertCall Sun.k sampleRes.r0 sampleRes.rf tof] ∧
    sampleRes.r0 = sampleRes.rr_earth.headD (0, 0, 0) ∧
    sampleRes.rf = sampleRes.rr_mars.getLastD (0, 0, 0) ∧
    times_vector.headD 0 = date_launch ∧
    times_vector.getLastD 0 = date_arrival ∧
    (∃ v, sampleOracles.bodyPosvel "earth" date_launch = Except.ok (sampleRes.r0, v)) ∧
    (∃ v, sampleOracles.bodyPosvel "mars" date_arrival = Except.ok (sampleRes.rf, v)) ∧
    sampleOracles.lambert Sun.k sampleRes.r0 sampleRes.rf tof =
      Except.ok [(sampleRes.va, sampleRes.vb)] ∧
    sampleRes.ss0_trans = Orbit.from_vectors "Sun" sampleRes.r0 sampleRes.va date_launch ∧
    sampleRes.ssf_trans = Orbit.from_vectors "Sun" sampleRes.rf sampleRes.vb date_arrival :=
  C1_lambert_call_and_transfer_orbits sampleOracles sampleRes
    ((runNotebook sampleOracles).2) sampleRun_ok

/-- C2: the destructuring `(va, vb), = iod.lambert(...)` succeeds exactly
when the solver yields one velocity pair: whenever the solver returns
zero or two-or-more pairs the run terminates with the unpacking error
right after the solver call (so no transfer orbit is constructed and no
plotting happens), and every successful run received exactly one pair. -/
theorem C2_unpacking_requires_single_pair (O : Oracles) (rrE vvE rrM vvM : List Vec3)
    (pairs : List (Vec3 × Vec3))
    (hE : get_body_barycentric_posvel O "earth" times_vector = Except.ok (rrE, vvE))
    (hM : get_body_barycentric_posvel O "mars" times_vector = Except.ok (rrM, vvM))
    (hL : O.lambert Sun.k (rrE.headD (0, 0, 0)) (rrM.getLastD (0, 0, 0)) tof =
      Except.ok pairs) :
    (pairs.length ≠ 1 →
      runNotebook O = (Except.error (Err.unpackMismatch pairs.length),
        [Event.setEphemeris "jpl", Event.posvelLookup "earth" times_vector,
         Event.posvelLookup "mars" times_vector,
         Event.lambertCall Sun.k (rrE.headD (0, 0, 0)) (rrM.getLastD (0, 0, 0)) tof])) ∧
    (∀ (res : NotebookRun) (tr : List Event),
      runNotebook O = (Except.ok res, tr) → pairs.length = 1) := by
  constructor
  · intro hne
    simp only [runNotebook, hE, hM, hL]
    match pairs, hne with
    | [], _ => simp
    | (a, b) :: (p :: rest), _ => simp
    | [(a, b)], hne => exact absurd rfl hne
  · intro res tr hrun
    obtain ⟨rrE', vvE', rrM', vvM', va, vb, traj, hE', hM', hL', _, _, _⟩ :=
      runNotebook_ok_elim O res tr hrun
    rw [hE] at hE'
    rw [hM] at hM'
    injection hE' with hE'
    injection hM' with hM'
    obtain ⟨h1, h2⟩ := Prod.mk.injEq .. ▸ hE'
    obtain ⟨h3, h4⟩ := Prod.mk.injEq .. ▸ hM'
    subst h1
    subst h3
    rw [hL] at hL'
    injection hL' with hL'
    subst hL'
    rfl

/-- Witness for C2: a solver answering two conic solutions makes the run
end in the unpacking error for two items. -/
theorem C2_witness :
    runNotebook twoPairOracles = (Except.error (Err.unpackMismatch 2),
      [Event.setEphemeris "jpl", Event.posvelLookup "earth" times_vector,
       Event.posvelLookup "mars" times_vector,
       Event.lambertCall Sun.k (1, 2, 3) (1, 2, 3) tof]) :=
  (C2_unpacking_requires_single_pair twoPairOracles
    (times_vector.map fun _ => ((1 : ℚ), 2, 3)) (times_vector.map fun _ => ((4 : ℚ), 5, 6))
    (times_vector.map fun _ => ((1 : ℚ), 2, 3)) (times_vector.map fun _ => ((4 : ℚ), 5, 6))
    [((7, 8, 9), (10, 11, 12)), ((16, 17, 18), (19, 20, 21))] rfl rfl rfl).1 (by decide)

/-- C4: every successful run performs its stages in the fixed order
ephemeris fetch (both lookups), then the Lambert solution taken from
that ephemeris data, then the rendering (with the propagation evaluated
just before the trajectory it feeds is drawn): its effect trace is
exactly this source-ordered sequence, so no stage's inputs are produced
after the stage runs. -/
theorem C4_stage_order (O : Oracles) (res : NotebookRun) (tr : List Event)
    (h : runNotebook O = (Except.ok res, tr)) :
    ∃ traj,
      O.propagate res.ss0_trans (times_vector.map (fun t => t - date_launch)) =
        Except.ok traj ∧
      tr = [Event.setEphemeris "jpl",
            Event.posvelLookup "earth" times_vector,
            Event.posvelLookup "mars" times_vector,
            Event.lambertCall Sun.k res.r0 res.rf tof,
            Event.setAttractor "Sun",
            Event.plotTrajectory res.rr_earth "Earth" color_earth0,
            Event.plotTrajectory res.rr_mars "Mars" color_marsf,
            Event.propagateCall res.ss0_trans (times_vector.map (fun t => t - date_launch)),
            Event.plotTrajectory traj "MSL trajectory" color_trans,
            Event.setView] ∧
      res.r0 = res.rr_earth.headD (0, 0, 0) ∧
      res.rf = res.rr_mars.getLastD (0, 0, 0) := by
  obtain ⟨rrE, vvE, rrM, vvM, va, vb, traj, hE, hM, hL, hP, hres, htr⟩ :=
    runNotebook_ok_elim O res tr h
  subst hres
  subst htr
  exact ⟨traj, hP, rfl, rfl, rfl⟩

/-- Witness for C4, at the sample collaborators. -/
theorem C4_witness :
    ∃ traj,
      sampleOracles.propagate sampleRes.ss0_trans
        (times_vector.map (fun t => t - date_launch)) = Except.ok traj ∧
      (runNotebook sampleOracles).2 = [Event.setEphemeris "jpl",
            Event.posvelLookup "earth" times_vector,
            Event.posvelLookup "mars" times_vector,
            Event.lambertCall Sun.k sampleRes.r0 sampleRes.rf tof,
            Event.setAttractor "Sun",
            Event.plotTrajectory sampleRes.rr_earth "Earth" color_earth0,
            Event.plotTrajectory sampleRes.rr_mars "Mars" color_marsf,
            Event.propagateCall sampleRes.ss0_trans
              (times_vector.map (fun t => t - date_launch)),
            Event.plotTrajectory traj "MSL trajectory" color_trans,
            Event.setView] ∧
      sampleRes.r0 = sampleRes.rr_earth.headD (0, 0, 0) ∧
      sampleRes.rf = sampleRes.rr_mars.getLastD (0, 0, 0) :=
  C4_stage_order sampleOracles sampleRes ((runNotebook sampleOracles).2) sampleRun_ok

/-- C7: every successful run selects the JPL ephemeris before performing
exactly two ephemeris lookups, for `"earth"` and `"mars"`, both over the
same `times_vector`, each returning that body's positions and
velocities. -/
theorem C7_ephemeris_lookups (O : Oracles) (res : NotebookRun) (tr : List Event)
    (h : runNotebook O = (Except.ok res, tr)) :
    tr.take 3 = [Event.setEphemeris "jpl", Event.posvelLookup "earth" times_vector,
                 Event.posvelLookup "mars" times_vector] ∧
    tr.filter (fun ev => isLookupEvent ev) =
      [Event.posvelLookup "earth" times_vector, Event.posvelLookup "mars" times_vector] ∧
    get_body_barycentric_posvel O "earth" times_vector =
      Except.ok (res.rr_earth, res.vv_earth) ∧
    get_body_barycentric_posvel O "mars" times_vector =
      Except.ok (res.rr_mars, res.vv_mars) := by
  obtain ⟨rrE, vvE, rrM, vvM, va, vb, traj, hE, hM, hL, hP, hres, htr⟩ :=
    runNotebook_ok_elim O res tr h
  subst hres
  subst htr
  refine ⟨rfl, ?_, hE, hM⟩
  simp [isLookupEvent]

/-- Witness for C7, at the sample collaborators. -/
theorem C7_witness :
    ((runNotebook sampleOracles).2).take 3 =
      [Event.setEphemeris "jpl", Event.posvelLookup "earth" times_vector,
       Event.posvelLookup "mars" times_vector] ∧
    ((runNotebook sampleOracles).2).filter (fun ev => isLookupEvent ev) =
      [Event.posvelLookup "earth" times_vector, Event.posvelLookup "mars" times_vector] ∧
    get_body_barycentric_posvel sampleOracles "earth" times_vector =
      Except.ok (sampleRes.rr_earth, sampleRes.vv_earth) ∧
    get_body_barycentric_posvel sampleOracles "mars" times_vector =
      Except.ok (sampleRes.rr_mars, sampleRes.vv_mars) :=
  C7_ephemeris_lookups sampleOracles sampleRes ((runNotebook sampleOracles).2) sampleRun_ok

/-- C9: all three plotted trajectories share one time grid: in every
successful run `times_vector` has exactly `N = 50` epochs running from
the launch date to the arrival date, the Earth and Mars position lists
have 50 entries, and the transfer trajectory is propagated at exactly
the offsets of those same 50 epochs from the departure orbit's epoch,
which is the launch date, so the first propagation offset is zero. -/
theorem C9_shared_time_grid (O : Oracles) (res : NotebookRun) (tr : List Event)
    (h : runNotebook O = (Except.ok res, tr)) :
    times_vector.length = N ∧ N = 50 ∧
    times_vector.headD 0 = date_launch ∧
    times_vector.getLastD 0 = date_arrival ∧
    res.rr_earth.length = 50 ∧ res.rr_mars.length = 50 ∧
    res.ss0_trans.epoch = date_launch ∧
    Event.propagateCall res.ss0_trans (times_vector.map (fun t => t - date_launch)) ∈ tr ∧
    (times_vector.map (fun t => t - date_launch)).length = 50 ∧
    (times_vector.map (fun t => t - date_launch)).headD 0 = 0 ∧
    ((times_vector.map (fun t => t - date_launch)).map (fun d => date_launch + d)) =
      times_vector := by
  obtain ⟨rrE, vvE, rrM, vvM, va, vb, traj, hE, hM, hL, hP, hres, htr⟩ :=
    runNotebook_ok_elim O res tr h
  subst hres
  subst htr
  have hlE := get_body_posvel_lengths O "earth" times_vector rrE vvE hE
  have hlM := get_body_posvel_lengths O "mars" times_vector rrM vvM hM
  refine ⟨by rw [times_vector_length, N], rfl, times_vector_head, times_vector_last,
    ?_, ?_, ?_, ?_, ?_, ?_, ?_⟩
  · show rrE.length = 50
    rw [hlE.1, times_vector_length]
  · show rrM.length = 50
    rw [hlM.1, times_vector_length]
  · simp [Orbit.from_vectors]
  · simp
  · rw [List.length_map, times_vector_length]
  · rw [List.headD_eq_head?, List.head?_eq_getElem?, List.getElem?_map,
      times_vector_getElem_zero]
    simp
  · rw [List.map_map]
    have hid : ((fun d => date_launch + d) ∘ (fun t => t - date_launch)) = id := by
      funext t
      simp
    rw [hid, List.map_id]

/-- Witness for C9, at the sample collaborators. -/
theorem C9_witness :
    times_vector.length = N ∧ N = 50 ∧
    times_vector.headD 0 = date_launch ∧
    times_vector.getLastD 0 = date_arrival ∧
    sampleRes.rr_earth.length = 50 ∧ sampleRes.rr_mars.length = 50 ∧
    sampleRes.ss0_trans.epoch = date_launch ∧
    Event.propagateCall sampleRes.ss0_trans
      (times_vector.map (fun t => t - date_launch)) ∈ (runNotebook sampleOracles).2 ∧
    (times_vector.map (fun t => t - date_launch)).length = 50 ∧
    (times_vector.map (fun t => t - date_launch)).headD 0 = 0 ∧
    ((times_vector.map (fun t => t - date_launch)).map (fun d => date_launch + d)) =
      times_vector :=
  C9_shared_time_grid sampleOracles sampleRes ((runNotebook sampleOracles).2) sampleRun_ok

end GoingToMars
